import Mathlib

/-!
A verification development for the `SQLiteConnection` component of
ofxSQLiteCpp (`src/SQLiteConnection.h`): a per-connection prepared
statement cache atop an SQLite handle.

The embedding models the connection state (mode, owned database handle,
statement cache, use counter, pool index) and its operations.  The header
defines `useCount`, `index` and `increment` inline; the remaining method
bodies (`construct`, the destructor, `hasStatement`, `getStatement`,
`_toAccessFlag`) are declared in the header but their translation unit is
not part of the sources, so those are modelled from the specification and
marked as such in their doc comments.

The opaque SQL engine is represented by a predicate `wf : String → Bool`
telling which query texts its compiler accepts, and by a compile log that
records every compilation the engine performs.  Machine integers
(`std::size_t`) are modelled as `Nat` reduced modulo `2 ^ 64`.
-/

namespace OfxSQLiteCpp

/-- Width of `std::size_t` in bits on the modelled platform. -/
def sizeTBits : Nat := 64

/-- The number of values representable by `std::size_t`. -/
def sizeTCard : Nat := 2 ^ sizeTBits

/-- `SQLiteConnection::Mode`: the closed set of access modes. -/
inductive Mode
  /-- Read only mode. -/
  | READ_ONLY
  /-- Write mode, will not create a new file. -/
  | READ_WRITE
  /-- Write mode, will create a new file if it does not exist. -/
  | READ_WRITE_CREATE
deriving DecidableEq, Repr

/-- SQLite native open flag `SQLITE_OPEN_READONLY`. -/
def SQLITE_OPEN_READONLY : Nat := 1

/-- SQLite native open flag `SQLITE_OPEN_READWRITE`. -/
def SQLITE_OPEN_READWRITE : Nat := 2

/-- SQLite native open flag `SQLITE_OPEN_CREATE`. -/
def SQLITE_OPEN_CREATE : Nat := 4

/-- Modelled from the spec: the body of `SQLiteConnection::_toAccessFlag`
is not among the sources (only its declaration is).  Per the spec it is a
pure, total function from the closed `Mode` set to the engine's native
open flags, mapping each mode to exactly one valid flag combination. -/
def _toAccessFlag : Mode → Nat
  | Mode.READ_ONLY => SQLITE_OPEN_READONLY
  | Mode.READ_WRITE => SQLITE_OPEN_READWRITE
  | Mode.READ_WRITE_CREATE => SQLITE_OPEN_READWRITE ||| SQLITE_OPEN_CREATE

/-- The valid engine flag combinations producible by an access mode. -/
def validAccessFlags : List Nat :=
  [SQLITE_OPEN_READONLY, SQLITE_OPEN_READWRITE,
   SQLITE_OPEN_READWRITE ||| SQLITE_OPEN_CREATE]

/-- The error taxonomy of the component. -/
inductive SQLiteError
  /-- Path/permission/mode mismatch at construction. -/
  | OpenError
  /-- Malformed SQL text passed to `getStatement`. -/
  | CompileError
  /-- Lock contention persisting beyond the configured timeout. -/
  | BusyError
deriving DecidableEq, Repr

/-- A compiled prepared statement (`Statement`): the underlying compiled
object is identified by `id` (one fresh identity per compile), holds the
exact query text it was compiled from, its current parameter bindings and
its execution cursor. -/
structure Statement where
  id : Nat
  queryText : String
  bindings : List Int
  cursor : Nat
deriving DecidableEq, Repr

/-- The owned database handle: the file it is open on and the configured
busy-timeout (`setBusy` value). -/
structure Database where
  filename : String
  busyTimeoutMilliseconds : Nat
deriving DecidableEq, Repr

/-- The state of an `SQLiteConnection`: the access mode, the owned
`Database`, the statement cache `_statements` (a map keyed by exact query
text, modelled as an association list), the use counter and pool index
(`std::size_t`), plus the engine's bookkeeping: the next fresh compiled
object identity and the log of all compilations performed. -/
structure SQLiteConnection where
  _mode : Mode
  _database : Database
  _statements : List (String × Statement)
  _useCount : Nat
  _index : Nat
  nextStmtId : Nat
  compileLog : List String
deriving DecidableEq, Repr

/-- Lookup in the statement cache by exact query text (no normalization):
the model of `std::map::find` on `_statements`. -/
def findStmt : List (String × Statement) → String → Option Statement
  | [], _ => none
  | (k, v) :: t, q => if k = q then some v else findStmt t q

/-- Replace the cached entry for key `q` by `st`, leaving other keys
untouched: the model of in-place mutation of a `std::map` entry. -/
def storeStmt (m : List (String × Statement)) (q : String) (st : Statement) :
    List (String × Statement) :=
  m.map fun p => if p.1 = q then (q, st) else p

/-- Clear the parameter bindings and rewind the execution cursor of a
statement (`reset()` and `clearBindings()` on a cache hit). -/
def resetStmt (st : Statement) : Statement :=
  { st with bindings := [], cursor := 0 }

/-- `useCount()`: defined inline in the header, returns `_useCount`. -/
def useCount (c : SQLiteConnection) : Nat := c._useCount

/-- `index()`: defined inline in the header, returns `_index`. -/
def index (c : SQLiteConnection) : Nat := c._index

/-- `increment()`: defined inline in the header as `_useCount++` on a
`std::size_t`, i.e. unsigned machine arithmetic that wraps modulo
`2 ^ 64` with no overflow guard. -/
def increment (c : SQLiteConnection) : SQLiteConnection :=
  { c with _useCount := (c._useCount + 1) % sizeTCard }

/-- Modelled from the spec: the body of `hasStatement` is not among the
sources (only its declaration is).  Per the spec it is a pure existence
check on the cache, with no mutation and no compile; its Lean type
(returning only a `Bool`, no successor state) makes the absence of
mutation structural. -/
def hasStatement (c : SQLiteConnection) (query : String) : Bool :=
  (findStmt c._statements query).isSome

/-- Modelled from the spec: the body of `getStatement` is not among the
sources (only its declaration is).  Per the spec, on a cache miss it
compiles `query` against the handle — failing with `CompileError` and
leaving the cache unchanged when the engine's compiler `wf` rejects the
text — and inserts the fresh statement; on a cache hit it resets the
bindings and cursor on the existing entry and returns the same underlying
compiled object.  The result pairs the returned statement (or error) with
the successor connection state. -/
def getStatement (wf : String → Bool) (c : SQLiteConnection) (query : String) :
    Except SQLiteError Statement × SQLiteConnection :=
  match findStmt c._statements query with
  | some st =>
      let st' := resetStmt st
      (Except.ok st', { c with _statements := storeStmt c._statements query st' })
  | none =>
      if wf query then
        let st : Statement :=
          { id := c.nextStmtId, queryText := query, bindings := [], cursor := 0 }
        (Except.ok st,
         { c with
            _statements := c._statements ++ [(query, st)],
            nextStmtId := c.nextStmtId + 1,
            compileLog := c.compileLog ++ [query] })
      else
        (Except.error SQLiteError.CompileError, c)

/-- Status of a path in the modelled file system. -/
inductive FileStatus
  /-- No file at this path. -/
  | absent
  /-- A file exists but cannot be accessed. -/
  | inaccessible
  /-- An accessible file exists. -/
  | present
deriving DecidableEq, Repr

/-- Modelled from the spec: the body of the `SQLiteConnection` constructor
is not among the sources (only its declaration is).  Per the spec,
construction opens the underlying handle, failing with `OpenError` when
the mode is `READ_ONLY` or `READ_WRITE` and the target file does not exist
or is inaccessible, while `READ_WRITE_CREATE` creates the file if absent.
The file system is modelled as a map from paths to `FileStatus`; the
result pairs the fresh connection with the successor file system. -/
def construct (fs : String → FileStatus) (filename : String) (mode : Mode)
    (databaseTimeoutMilliseconds : Nat) (idx : Nat) :
    Except SQLiteError (SQLiteConnection × (String → FileStatus)) :=
  match mode with
  | Mode.READ_ONLY | Mode.READ_WRITE =>
      if fs filename = FileStatus.present then
        Except.ok
          ({ _mode := mode,
             _database := { filename := filename,
                            busyTimeoutMilliseconds := databaseTimeoutMilliseconds },
             _statements := [],
             _useCount := 0,
             _index := idx,
             nextStmtId := 0,
             compileLog := [] }, fs)
      else
        Except.error SQLiteError.OpenError
  | Mode.READ_WRITE_CREATE =>
      Except.ok
        ({ _mode := mode,
           _database := { filename := filename,
                          busyTimeoutMilliseconds := databaseTimeoutMilliseconds },
           _statements := [],
           _useCount := 0,
           _index := idx,
           nextStmtId := 0,
           compileLog := [] },
         fun s => if s = filename then FileStatus.present else fs s)

/-- `database()`: the non-const accessor to the owned handle. -/
def database (c : SQLiteConnection) : Database := c._database

/-- `const database()`: the const accessor to the owned handle; both
accessors read the same single owned `_database` member. -/
def databaseConst (c : SQLiteConnection) : Database := c._database

/-- Modelled from the spec: `getStatement` is const-qualified in the
header and `_database`/`_statements` are `mutable`, so the call through a
const connection reference performs the same lookup, compile-on-miss and
reset-on-hit against the same mutable cache.  This definition follows the
spec's words for the const path, to be compared with `getStatement`. -/
def getStatementViaConst (wf : String → Bool) (c : SQLiteConnection)
    (query : String) : Except SQLiteError Statement × SQLiteConnection :=
  match findStmt c._statements query with
  | some st =>
      (Except.ok (resetStmt st),
       { c with _statements := storeStmt c._statements query (resetStmt st) })
  | none =>
      if wf query then
        (Except.ok
          { id := c.nextStmtId, queryText := query, bindings := [], cursor := 0 },
         { c with
            _statements :=
              c._statements ++
                [(query,
                  { id := c.nextStmtId, queryText := query,
                    bindings := [], cursor := 0 })],
            nextStmtId := c.nextStmtId + 1,
            compileLog := c.compileLog ++ [query] })
      else
        (Except.error SQLiteError.CompileError, c)

/-- A resource owned by a connection: its database handle or one of its
cached compiled statements. -/
inductive Resource
  /-- The storage-engine handle, identified by the file it is open on. -/
  | handle (filename : String)
  /-- A cached compiled statement, identified by its compiled object id. -/
  | statement (id : Nat)
deriving DecidableEq, Repr

/-- The resources a live connection owns: its handle and every cached
statement. -/
def ownedResources (c : SQLiteConnection) : List Resource :=
  Resource.handle c._database.filename ::
    c._statements.map fun p => Resource.statement p.2.id

/-- Modelled from the spec: the body of `~SQLiteConnection` is not among
the sources (only its declaration is).  Per the spec, destruction is
unconditional: it releases every cached statement and then the handle, in
one teardown, on every exit path.  The result lists the released
resources in release order (statements strictly before the handle, so no
statement ever references a closed handle). -/
def destroy (c : SQLiteConnection) : List Resource :=
  (c._statements.map fun p => Resource.statement p.2.id) ++
    [Resource.handle c._database.filename]

/-- Demonstration connection used to instantiate the theorems: a fresh
connection as produced by a successful construction with pool index `i`. -/
def demoConnection (i : Nat) : SQLiteConnection :=
  { _mode := Mode.READ_WRITE_CREATE,
    _database := { filename := "demo.db", busyTimeoutMilliseconds := 1000 },
    _statements := [],
    _useCount := 0,
    _index := i,
    nextStmtId := 0,
    compileLog := [] }

/-- Demonstration engine compiler used to instantiate the theorems: it
rejects exactly the empty query text. -/
def demoCompiler : String → Bool := fun q => !q.isEmpty

/-- Demonstration file system used to instantiate the theorems: exactly
one accessible file, `existing.db`. -/
def demoFs : String → FileStatus :=
  fun s => if s = "existing.db" then FileStatus.present else FileStatus.absent

/-! ### Helper lemmas about the statement cache -/

theorem findStmt_append (m l : List (String × Statement)) (q : String) :
    findStmt (m ++ l) q =
      (match findStmt m q with
       | some v => some v
       | none => findStmt l q) := by
  induction m with
  | nil => simp [findStmt]
  | cons p t ih =>
      obtain ⟨k, v⟩ := p
      by_cases hk : k = q
      · simp [findStmt, hk]
      · simp [findStmt, hk, ih]

theorem findStmt_singleton (q : String) (st : Statement) :
    findStmt [(q, st)] q = some st := by
  simp [findStmt]

theorem storeStmt_cons_of_eq (k q : String) (v st : Statement)
    (t : List (String × Statement)) (hk : k = q) :
    storeStmt ((k, v) :: t) q st = (q, st) :: storeStmt t q st := by
  simp [storeStmt, hk]

theorem storeStmt_cons_of_ne (k q : String) (v st : Statement)
    (t : List (String × Statement)) (hk : k ≠ q) :
    storeStmt ((k, v) :: t) q st = (k, v) :: storeStmt t q st := by
  simp [storeStmt, hk]

theorem findStmt_storeStmt_self (m : List (String × Statement)) (q : String)
    (st : Statement) :
    findStmt (storeStmt m q st) q = (findStmt m q).map fun _ => st := by
  induction m with
  | nil => rfl
  | cons p t ih =>
      obtain ⟨k, v⟩ := p
      by_cases hk : k = q
      · rw [storeStmt_cons_of_eq k q v st t hk]
        subst hk
        simp [findStmt]
      · rw [storeStmt_cons_of_ne k q v st t hk]
        simp [findStmt, hk, ih]

theorem findStmt_storeStmt_ne (m : List (String × Statement)) (q k : String)
    (st : Statement) (h : k ≠ q) :
    findStmt (storeStmt m q st) k = findStmt m k := by
  induction m with
  | nil => rfl
  | cons p t ih =>
      obtain ⟨k', v⟩ := p
      by_cases hk : k' = q
      · rw [storeStmt_cons_of_eq k' q v st t hk]
        have hqk : q ≠ k := fun hqk => h hqk.symm
        subst hk
        simp [findStmt, hqk, ih]
      · rw [storeStmt_cons_of_ne k' q v st t hk]
        by_cases hkk : k' = k
        · simp [findStmt, hkk]
        · simp [findStmt, hkk, ih]

theorem findStmt_eq_none_iff (m : List (String × Statement)) (q : String) :
    findStmt m q = none ↔ q ∉ m.map Prod.fst := by
  induction m with
  | nil => simp [findStmt]
  | cons p t ih =>
      obtain ⟨k, v⟩ := p
      by_cases hk : k = q
      · subst hk
        simp [findStmt]
      · simp only [findStmt, if_neg hk, List.map_cons, List.mem_cons]
        rw [ih]
        constructor
        · intro hnone hcase
          rcases hcase with h1 | h2
          · exact hk h1.symm
          · exact hnone h2
        · intro hnot h2
          exact hnot (Or.inr h2)

/-! ### Helper lemmas about the use counter -/

theorem one_lt_sizeTCard : 1 < sizeTCard := by
  have h : (1 : Nat) < 2 ^ 64 := by norm_num
  simp only [sizeTCard, sizeTBits]
  exact h

theorem useCount_increment_eq (c : SQLiteConnection) :
    useCount (increment c) = (useCount c + 1) % sizeTCard := rfl

theorem useCount_iterate_of_zero (c : SQLiteConnection) (n : Nat)
    (h0 : useCount c = 0) :
    useCount (increment^[n] c) = n % sizeTCard := by
  induction n with
  | zero =>
      simp [h0, Nat.zero_mod]
  | succ n ih =>
      rw [Function.iterate_succ_apply', useCount_increment_eq, ih]
      conv_rhs => rw [Nat.add_mod]
      rw [Nat.mod_eq_of_lt one_lt_sizeTCard]

theorem index_iterate_increment (c : SQLiteConnection) (n : Nat) :
    index (increment^[n] c) = index c := by
  induction n with
  | zero => rfl
  | succ n ih => rw [Function.iterate_succ_apply', increment]; exact ih

theorem construct_ok_fields (fs : String → FileStatus) (f : String)
    (mode : Mode) (t i : Nat) (conn : SQLiteConnection)
    (fs' : String → FileStatus)
    (h : construct fs f mode t i = Except.ok (conn, fs')) :
    conn = { _mode := mode,
             _database := { filename := f, busyTimeoutMilliseconds := t },
             _statements := [], _useCount := 0, _index := i,
             nextStmtId := 0, compileLog := [] } := by
  cases mode with
  | READ_ONLY =>
      simp only [construct] at h
      by_cases hp : fs f = FileStatus.present
      · rw [if_pos hp] at h
        simp only [Except.ok.injEq, Prod.mk.injEq] at h
        exact h.1.symm
      · rw [if_neg hp] at h
        exact Except.noConfusion h
  | READ_WRITE =>
      simp only [construct] at h
      by_cases hp : fs f = FileStatus.present
      · rw [if_pos hp] at h
        simp only [Except.ok.injEq, Prod.mk.injEq] at h
        exact h.1.symm
      · rw [if_neg hp] at h
        exact Except.noConfusion h
  | READ_WRITE_CREATE =>
      simp only [construct, Except.ok.injEq, Prod.mk.injEq] at h
      exact h.1.symm

/-! ### Claim theorems -/

/-- C10: the use counter is an unsigned machine-width integer
(`std::size_t`, modelled with width 64) with no overflow guard:
`increment()` applied when `useCount()` equals the maximum representable
value `2 ^ 64 - 1` wraps the counter to `0`, and `useCount` after `N`
increments from a fresh counter equals `N` modulo `2 ^ 64`, rather than
failing or saturating. -/
theorem increment_wraps_spec :
    (∀ c : SQLiteConnection, useCount c = sizeTCard - 1 →
        useCount (increment c) = 0) ∧
    (∀ (c : SQLiteConnection) (n : Nat), useCount c = 0 →
        useCount (increment^[n] c) = n % sizeTCard) := by
  constructor
  · intro c hmax
    rw [useCount_increment_eq, hmax,
        Nat.sub_add_cancel (Nat.le_of_lt one_lt_sizeTCard), Nat.mod_self]
  · intro c n h0
    exact useCount_iterate_of_zero c n h0

/-- Connection with the use counter at the maximum `std::size_t` value,
used to exercise the wraparound. -/
def maxedConnection : SQLiteConnection :=
  { demoConnection 0 with _useCount := sizeTCard - 1 }

/-- C10 witness: incrementing a connection whose counter sits at
`2 ^ 64 - 1` wraps it to `0`, and five increments from zero give
`5 % 2 ^ 64`. -/
theorem increment_wraps_spec_witness :
    useCount maxedConnection = sizeTCard - 1 ∧
    useCount (increment maxedConnection) = 0 ∧
    useCount (demoConnection 0) = 0 ∧
    useCount (increment^[5] (demoConnection 0)) = 5 % sizeTCard :=
  ⟨rfl, increment_wraps_spec.1 maxedConnection rfl,
   rfl, increment_wraps_spec.2 (demoConnection 0) 5 rfl⟩

/-- C6 (amended): after a successful construction the counter starts at
`0` and the pool index is exactly the supplied `i`; after `increment()`
has been called `N` times with `N < 2 ^ 64`, `useCount()` returns exactly
`N` (in general it returns `N` modulo `2 ^ 64`, see the wraparound
theorem); `index()` is unchanged by any number of increments, and
`getStatement` changes neither `useCount` nor `index`. -/
theorem useCount_index_bookkeeping :
    (∀ fs f mode t i conn fs',
        construct fs f mode t i = Except.ok (conn, fs') →
        useCount conn = 0 ∧ index conn = i) ∧
    (∀ (c : SQLiteConnection) (n : Nat), useCount c = 0 → n < sizeTCard →
        useCount (increment^[n] c) = n) ∧
    (∀ (c : SQLiteConnection) (n : Nat), index (increment^[n] c) = index c) ∧
    (∀ wf c q, useCount ((getStatement wf c q).2) = useCount c ∧
        index ((getStatement wf c q).2) = index c) := by
  refine ⟨?_, ?_, ?_, ?_⟩
  · intro fs f mode t i conn fs' h
    rw [construct_ok_fields fs f mode t i conn fs' h]
    exact ⟨rfl, rfl⟩
  · intro c n h0 hn
    rw [useCount_iterate_of_zero c n h0, Nat.mod_eq_of_lt hn]
  · intro c n
    exact index_iterate_increment c n
  · intro wf c q
    unfold getStatement
    cases h : findStmt c._statements q with
    | some st => exact ⟨rfl, rfl⟩
    | none =>
        by_cases hw : wf q = true
        · simp [hw, useCount, index]
        · simp [hw, useCount, index]

/-- C6 counterexample: the claim as stated fails at `N = 2 ^ 64`: on a
freshly constructed connection, after `2 ^ 64` calls to `increment()` the
counter has wrapped to `0`, so `useCount()` does not return `N`. -/
theorem useCount_exact_counterexample :
    ¬ useCount (increment^[sizeTCard] (demoConnection 0)) = sizeTCard := by
  rw [useCount_iterate_of_zero (demoConnection 0) sizeTCard rfl, Nat.mod_self]
  have h := one_lt_sizeTCard
  omega

/-- C6 witness: a connection constructed read-only on an existing file
has counter `0` and index `7`, and three increments from zero yield a use
count of exactly `3`. -/
theorem useCount_index_bookkeeping_witness :
    useCount (demoConnection 0) = 0 ∧ (3 : Nat) < sizeTCard ∧
    useCount (increment^[3] (demoConnection 0)) = 3 ∧
    index (increment^[3] (demoConnection 0)) = index (demoConnection 0) :=
  ⟨rfl, by norm_num [sizeTCard, sizeTBits],
   useCount_index_bookkeeping.2.1 (demoConnection 0) 3 rfl
     (by norm_num [sizeTCard, sizeTBits]),
   useCount_index_bookkeeping.2.2.1 (demoConnection 0) 3⟩

/-- C4: construction fails with `OpenError` exactly when the mode is
`READ_ONLY` or `READ_WRITE` and the target file does not exist or is
inaccessible; construction with `READ_WRITE_CREATE` on an absent path
succeeds and creates the file, which subsequently exists. -/
theorem construct_openError_iff :
    (∀ fs f mode t i,
        construct fs f mode t i = Except.error SQLiteError.OpenError ↔
          ((mode = Mode.READ_ONLY ∨ mode = Mode.READ_WRITE) ∧
            fs f ≠ FileStatus.present)) ∧
    (∀ (fs : String → FileStatus) f t i, fs f = FileStatus.absent →
        ∃ conn fs',
          construct fs f Mode.READ_WRITE_CREATE t i = Except.ok (conn, fs') ∧
          fs' f = FileStatus.present) := by
  constructor
  · intro fs f mode t i
    cases mode with
    | READ_ONLY =>
        simp only [construct]
        by_cases hp : fs f = FileStatus.present
        · rw [if_pos hp]
          simp [hp]
        · rw [if_neg hp]
          simp [hp]
    | READ_WRITE =>
        simp only [construct]
        by_cases hp : fs f = FileStatus.present
        · rw [if_pos hp]
          simp [hp]
        · rw [if_neg hp]
          simp [hp]
    | READ_WRITE_CREATE =>
        simp [construct]
  · intro fs f t i habs
    refine ⟨_, _, rfl, ?_⟩
    simp

/-- C4 witness: opening `missing.db` read-only on the demonstration file
system fails with `OpenError`, while opening it in create mode succeeds
and the file is present afterwards. -/
theorem construct_openError_iff_witness :
    demoFs "missing.db" = FileStatus.absent ∧
    construct demoFs "missing.db" Mode.READ_ONLY 0 0 =
      Except.error SQLiteError.OpenError ∧
    (∃ conn fs',
        construct demoFs "missing.db" Mode.READ_WRITE_CREATE 0 0 =
          Except.ok (conn, fs') ∧
        fs' "missing.db" = FileStatus.present) :=
  ⟨by decide,
   (construct_openError_iff.1 demoFs "missing.db" Mode.READ_ONLY 0 0).mpr
     ⟨Or.inl rfl, by decide⟩,
   construct_openError_iff.2 demoFs "missing.db" 0 0 (by decide)⟩

/-- C7: the mode mapper `_toAccessFlag` is a pure total function on the
closed `Mode` set: it is a plain Lean function (no effects, no error
result type), and every `Mode` value maps to exactly one valid engine
flag combination. -/
theorem toAccessFlag_pure_total :
    ∀ m : Mode, ∃! f : Nat, _toAccessFlag m = f ∧ f ∈ validAccessFlags := by
  intro m
  refine ⟨_toAccessFlag m, ⟨rfl, ?_⟩, ?_⟩
  · cases m <;> simp [_toAccessFlag, validAccessFlags]
  · rintro y ⟨hy, _⟩
    exact hy.symm

/-- C7 witness: `READ_WRITE_CREATE` maps to exactly one valid flag
combination. -/
theorem toAccessFlag_pure_total_witness :
    ∃! f : Nat, _toAccessFlag Mode.READ_WRITE_CREATE = f ∧
      f ∈ validAccessFlags :=
  toAccessFlag_pure_total Mode.READ_WRITE_CREATE

/-- C1: for every query string `q`, the first `getStatement q` on a
connection whose cache does not hold `q` compiles `q` exactly once
(the compile log grows by exactly that one entry) and inserts it into the
cache; every subsequent `getStatement q` — on any state in which `q` is
cached — returns the same underlying compiled object (same identity) with
its parameter bindings cleared and its execution cursor reset, performs
no further compile, and keeps the entry cached; and the cache keeps at
most one entry per distinct query text. -/
theorem getStatement_compile_once (wf : String → Bool) (c : SQLiteConnection)
    (q : String) (hmiss : findStmt c._statements q = none)
    (hwf : wf q = true) :
    ∃ st1 c1,
      getStatement wf c q = (Except.ok st1, c1) ∧
      c1.compileLog = c.compileLog ++ [q] ∧
      findStmt c1._statements q = some st1 ∧
      (∀ c' st', findStmt c'._statements q = some st' →
        ∃ c'', getStatement wf c' q = (Except.ok (resetStmt st'), c'') ∧
          (resetStmt st').id = st'.id ∧
          (resetStmt st').bindings = [] ∧
          (resetStmt st').cursor = 0 ∧
          c''.compileLog = c'.compileLog ∧
          findStmt c''._statements q = some (resetStmt st')) ∧
      ((c._statements.map Prod.fst).Nodup →
        (c1._statements.map Prod.fst).Nodup ∧
        (c1._statements.map Prod.fst).count q = 1) := by
  have hget : getStatement wf c q =
      (Except.ok { id := c.nextStmtId, queryText := q, bindings := [], cursor := 0 },
       { c with
          _statements := c._statements ++
            [(q, { id := c.nextStmtId, queryText := q, bindings := [], cursor := 0 })],
          nextStmtId := c.nextStmtId + 1,
          compileLog := c.compileLog ++ [q] }) := by
    unfold getStatement
    rw [hmiss]
    simp [hwf]
  have hq : q ∉ c._statements.map Prod.fst := (findStmt_eq_none_iff _ _).mp hmiss
  refine ⟨_, _, hget, rfl, ?_, ?_, ?_⟩
  · rw [findStmt_append, hmiss]
    exact findStmt_singleton q _
  · intro c' st' hsome
    refine ⟨{ c' with
               _statements := storeStmt c'._statements q (resetStmt st') },
            ?_, rfl, rfl, rfl, rfl, ?_⟩
    · unfold getStatement
      rw [hsome]
    · rw [findStmt_storeStmt_self, hsome]
      rfl
  · intro hnd
    constructor
    · simp only [List.map_append, List.map_cons, List.map_nil]
      exact List.Nodup.append hnd (List.nodup_singleton q)
        (by simp [List.disjoint_singleton, hq])
    · simp only [List.map_append, List.map_cons, List.map_nil,
        List.count_append]
      rw [List.count_eq_zero.mpr hq]
      simp

/-- C1 witness: the first call on a fresh connection compiles and caches
the query, and the hit path of the same theorem applies to the resulting
state. -/
theorem getStatement_compile_once_witness :
    findStmt (demoConnection 0)._statements "SELECT 1" = none ∧
    demoCompiler "SELECT 1" = true ∧
    (∃ st1 c1,
      getStatement demoCompiler (demoConnection 0) "SELECT 1" =
        (Except.ok st1, c1) ∧
      c1.compileLog = (demoConnection 0).compileLog ++ ["SELECT 1"] ∧
      findStmt c1._statements "SELECT 1" = some st1) := by
  refine ⟨rfl, by decide, ?_⟩
  obtain ⟨st1, c1, h1, h2, h3, -, -⟩ :=
    getStatement_compile_once demoCompiler (demoConnection 0) "SELECT 1"
      rfl (by decide)
  exact ⟨st1, c1, h1, h2, h3⟩

/-- C3: calling `getStatement` with malformed SQL text (text the engine
compiler rejects) fails with `CompileError` and returns the connection
state unchanged; in particular `hasStatement` is still `false` for that
text afterwards. -/
theorem getStatement_compileError_atomic (wf : String → Bool)
    (c : SQLiteConnection) (q : String)
    (hmiss : findStmt c._statements q = none) (hbad : wf q = false) :
    getStatement wf c q = (Except.error SQLiteError.CompileError, c) ∧
    hasStatement c q = false := by
  constructor
  · unfold getStatement
    rw [hmiss]
    simp [hbad]
  · simp [hasStatement, hmiss]

/-- C3 witness: the empty query text is rejected by the demonstration
compiler; `getStatement` fails with `CompileError`, hands back the very
same connection state, and `hasStatement` is still `false` for it. -/
theorem getStatement_compileError_atomic_witness :
    findStmt (demoConnection 0)._statements "" = none ∧
    demoCompiler "" = false ∧
    getStatement demoCompiler (demoConnection 0) "" =
      (Except.error SQLiteError.CompileError, demoConnection 0) ∧
    hasStatement (demoConnection 0) "" = false :=
  ⟨rfl, by decide,
   (getStatement_compileError_atomic demoCompiler (demoConnection 0) ""
      rfl (by decide)).1,
   (getStatement_compileError_atomic demoCompiler (demoConnection 0) ""
      rfl (by decide)).2⟩

/-- Demonstration connection whose cache already holds `SELECT 1`: the
state produced by one successful `getStatement` on a fresh connection. -/
def demoCached : SQLiteConnection :=
  { demoConnection 0 with
      _statements :=
        [("SELECT 1", { id := 0, queryText := "SELECT 1",
                        bindings := [], cursor := 0 })],
      nextStmtId := 1,
      compileLog := ["SELECT 1"] }

/-- C2: `hasStatement q` is `false` on any freshly constructed
connection, is unchanged by `increment` and by `getStatement` on a
different query text (so it stays `false` as long as `getStatement q` has
never been called), and is `true` immediately after any successful
`getStatement q`; by its Lean type (`Connection → String → Bool`,
returning no successor state) it mutates nothing and compiles nothing. -/
theorem hasStatement_tracks_cache :
    (∀ fs f mode t i conn fs',
        construct fs f mode t i = Except.ok (conn, fs') →
        ∀ q, hasStatement conn q = false) ∧
    (∀ c q, hasStatement (increment c) q = hasStatement c q) ∧
    (∀ wf c q q', q' ≠ q →
        hasStatement ((getStatement wf c q').2) q = hasStatement c q) ∧
    (∀ wf c q st c', getStatement wf c q = (Except.ok st, c') →
        hasStatement c' q = true) := by
  refine ⟨?_, ?_, ?_, ?_⟩
  · intro fs f mode t i conn fs' h q
    rw [construct_ok_fields fs f mode t i conn fs' h]
    rfl
  · intro c q
    rfl
  · intro wf c q q' hne
    unfold getStatement
    cases h : findStmt c._statements q' with
    | some st =>
        simp only [hasStatement]
        rw [findStmt_storeStmt_ne c._statements q' q (resetStmt st)
          (fun hqq => hne hqq.symm)]
    | none =>
        by_cases hw : wf q' = true
        · simp only [hw, if_true, hasStatement]
          rw [findStmt_append]
          cases h2 : findStmt c._statements q with
          | some st2 => rfl
          | none => simp [findStmt, hne]
        · simp [hw]
  · intro wf c q st c' h
    cases h2 : findStmt c._statements q with
    | some st0 =>
        have hEq : getStatement wf c q =
            (Except.ok (resetStmt st0),
             { c with
                _statements := storeStmt c._statements q (resetStmt st0) }) := by
          unfold getStatement
          rw [h2]
        rw [hEq] at h
        simp only [Prod.mk.injEq] at h
        rw [← h.2]
        simp only [hasStatement]
        rw [findStmt_storeStmt_self, h2]
        rfl
    | none =>
        by_cases hw : wf q = true
        · have hEq : getStatement wf c q =
              (Except.ok { id := c.nextStmtId, queryText := q,
                           bindings := [], cursor := 0 },
               { c with
                  _statements := c._statements ++
                    [(q, { id := c.nextStmtId, queryText := q,
                           bindings := [], cursor := 0 })],
                  nextStmtId := c.nextStmtId + 1,
                  compileLog := c.compileLog ++ [q] }) := by
            unfold getStatement
            rw [h2]
            simp [hw]
          rw [hEq] at h
          simp only [Prod.mk.injEq] at h
          rw [← h.2]
          simp only [hasStatement]
          rw [findStmt_append, h2]
          simp [findStmt]
        · have hEq : getStatement wf c q =
              (Except.error SQLiteError.CompileError, c) := by
            unfold getStatement
            rw [h2]
            simp [hw]
          rw [hEq] at h
          simp only [Prod.mk.injEq] at h
          exact Except.noConfusion h.1

/-- C2 witness: on a fresh connection `hasStatement` is `false`; it is
untouched by `increment` and by a `getStatement` on a different text, and
`true` right after a successful `getStatement` of the text itself. -/
theorem hasStatement_tracks_cache_witness :
    hasStatement (demoConnection 0) "SELECT 1" = false ∧
    hasStatement (increment (demoConnection 0)) "SELECT 1" =
      hasStatement (demoConnection 0) "SELECT 1" ∧
    hasStatement ((getStatement demoCompiler (demoConnection 0)
        "SELECT 2").2) "SELECT 1" =
      hasStatement (demoConnection 0) "SELECT 1" ∧
    hasStatement demoCached "SELECT 1" = true := by
  refine ⟨rfl, hasStatement_tracks_cache.2.1 (demoConnection 0) "SELECT 1",
    hasStatement_tracks_cache.2.2.1 demoCompiler (demoConnection 0)
      "SELECT 1" "SELECT 2" (by decide), ?_⟩
  exact hasStatement_tracks_cache.2.2.2 demoCompiler (demoConnection 0)
    "SELECT 1"
    { id := 0, queryText := "SELECT 1", bindings := [], cursor := 0 }
    demoCached rfl

/-- C5: cache keys are compared as exact query text with no
normalization: two query strings that differ as character sequences are
compiled separately and occupy two distinct cache entries (two more
entries than before, holding distinct compiled objects). -/
theorem distinct_texts_distinct_entries (wf : String → Bool)
    (c : SQLiteConnection) (q1 q2 : String) (hne : q1 ≠ q2)
    (h1 : findStmt c._statements q1 = none)
    (h2 : findStmt c._statements q2 = none)
    (hw1 : wf q1 = true) (hw2 : wf q2 = true) :
    ∃ st1 c1 st2 c2,
      getStatement wf c q1 = (Except.ok st1, c1) ∧
      getStatement wf c1 q2 = (Except.ok st2, c2) ∧
      findStmt c2._statements q1 = some st1 ∧
      findStmt c2._statements q2 = some st2 ∧
      st1 ≠ st2 ∧
      c2._statements.length = c._statements.length + 2 := by
  have hg1 : getStatement wf c q1 =
      (Except.ok { id := c.nextStmtId, queryText := q1, bindings := [], cursor := 0 },
       { c with
          _statements := c._statements ++
            [(q1, { id := c.nextStmtId, queryText := q1, bindings := [], cursor := 0 })],
          nextStmtId := c.nextStmtId + 1,
          compileLog := c.compileLog ++ [q1] }) := by
    unfold getStatement
    rw [h1]
    simp [hw1]
  have h2' : findStmt (c._statements ++
      [(q1, { id := c.nextStmtId, queryText := q1,
              bindings := [], cursor := 0 })]) q2 = none := by
    rw [findStmt_append, h2]
    simp [findStmt, hne]
  have hg2 : getStatement wf
      { c with
         _statements := c._statements ++
           [(q1, { id := c.nextStmtId, queryText := q1,
                   bindings := [], cursor := 0 })],
         nextStmtId := c.nextStmtId + 1,
         compileLog := c.compileLog ++ [q1] } q2 =
      (Except.ok { id := c.nextStmtId + 1, queryText := q2,
                   bindings := [], cursor := 0 },
       { c with
          _statements := (c._statements ++
            [(q1, { id := c.nextStmtId, queryText := q1,
                    bindings := [], cursor := 0 })]) ++
            [(q2, { id := c.nextStmtId + 1, queryText := q2,
                    bindings := [], cursor := 0 })],
          nextStmtId := c.nextStmtId + 1 + 1,
          compileLog := (c.compileLog ++ [q1]) ++ [q2] }) := by
    unfold getStatement
    rw [h2']
    simp [hw2]
  have hin : findStmt (c._statements ++
      [(q1, { id := c.nextStmtId, queryText := q1,
              bindings := [], cursor := 0 })]) q1 =
      some { id := c.nextStmtId, queryText := q1,
             bindings := [], cursor := 0 } := by
    rw [findStmt_append, h1]
    exact findStmt_singleton q1 _
  refine ⟨_, _, _, _, hg1, hg2, ?_, ?_, ?_, ?_⟩
  · rw [findStmt_append, hin]
  · rw [findStmt_append, h2']
    exact findStmt_singleton q2 _
  · intro hEq
    simp only [Statement.mk.injEq] at hEq
    omega
  · simp

/-- C5 witness: the spec's own example, `SELECT 1` versus `SELECT  1`
(two spaces): textually different though semantically equivalent, they
end up as two distinct cache entries. -/
theorem distinct_texts_distinct_entries_witness :
    "SELECT 1" ≠ "SELECT  1" ∧
    (∃ st1 c1 st2 c2,
      getStatement demoCompiler (demoConnection 0) "SELECT 1" =
        (Except.ok st1, c1) ∧
      getStatement demoCompiler c1 "SELECT  1" = (Except.ok st2, c2) ∧
      findStmt c2._statements "SELECT 1" = some st1 ∧
      findStmt c2._statements "SELECT  1" = some st2 ∧
      st1 ≠ st2 ∧
      c2._statements.length = (demoConnection 0)._statements.length + 2) :=
  ⟨by decide,
   distinct_texts_distinct_entries demoCompiler (demoConnection 0)
     "SELECT 1" "SELECT  1" (by decide) rfl rfl (by decide) (by decide)⟩

/-- C8: the const-qualified and non-const entry points are behaviourally
equivalent with respect to the cache: both `database` accessors read the
same single owned handle, the const statement path
(`getStatementViaConst`, written from the spec's words for the
const-qualified `getStatement` acting on the `mutable` members) computes
exactly the same result and cache update as `getStatement` on every
state, and in particular const access still causes statement-cache
population. -/
theorem const_mutable_equiv :
    (∀ c, database c = databaseConst c) ∧
    (∀ wf c q, getStatementViaConst wf c q = getStatement wf c q) ∧
    (∀ wf c q, findStmt c._statements q = none → wf q = true →
        hasStatement ((getStatementViaConst wf c q).2) q = true) := by
  refine ⟨fun c => rfl, ?_, ?_⟩
  · intro wf c q
    unfold getStatement getStatementViaConst
    cases h : findStmt c._statements q with
    | some st => rfl
    | none => rfl
  · intro wf c q hmiss hwf
    have hEq : getStatementViaConst wf c q =
        (Except.ok { id := c.nextStmtId, queryText := q,
                     bindings := [], cursor := 0 },
         { c with
            _statements := c._statements ++
              [(q, { id := c.nextStmtId, queryText := q,
                     bindings := [], cursor := 0 })],
            nextStmtId := c.nextStmtId + 1,
            compileLog := c.compileLog ++ [q] }) := by
      unfold getStatementViaConst
      rw [hmiss]
      simp [hwf]
    rw [hEq]
    simp only [hasStatement]
    rw [findStmt_append, hmiss]
    simp [findStmt]

/-- C8 witness: on a fresh connection, the const path populates the cache
for `SELECT 1` exactly as the mutable path would, and the two handle
accessors agree. -/
theorem const_mutable_equiv_witness :
    database (demoConnection 0) = databaseConst (demoConnection 0) ∧
    getStatementViaConst demoCompiler (demoConnection 0) "SELECT 1" =
      getStatement demoCompiler (demoConnection 0) "SELECT 1" ∧
    findStmt (demoConnection 0)._statements "SELECT 1" = none ∧
    demoCompiler "SELECT 1" = true ∧
    hasStatement ((getStatementViaConst demoCompiler (demoConnection 0)
        "SELECT 1").2) "SELECT 1" = true :=
  ⟨const_mutable_equiv.1 (demoConnection 0),
   const_mutable_equiv.2.1 demoCompiler (demoConnection 0) "SELECT 1",
   rfl, by decide,
   const_mutable_equiv.2.2 demoCompiler (demoConnection 0) "SELECT 1"
     rfl (by decide)⟩

/-- C9: every cached statement's lifetime is bounded by its owning
connection's: destruction — total on every state, whatever the failure
history — releases exactly the owned resources (the handle and all cached
statements) in one teardown, with the handle released last so no
statement ever references a closed handle; and before destruction no
operation ever removes a cached statement (`getStatement` and `increment`
keep every cached query cached). -/
theorem statement_lifetime :
    (∀ c r, r ∈ ownedResources c ↔ r ∈ destroy c) ∧
    (∀ c, (destroy c).getLast? =
        some (Resource.handle c._database.filename)) ∧
    (∀ wf c q q', hasStatement c q' = true →
        hasStatement ((getStatement wf c q).2) q' = true) ∧
    (∀ c, (increment c)._statements = c._statements) := by
  refine ⟨?_, ?_, ?_, fun c => rfl⟩
  · intro c r
    simp [ownedResources, destroy, or_comm]
  · intro c
    simp [destroy]
  · intro wf c q q' hq'
    obtain ⟨st', hst⟩ := Option.isSome_iff_exists.mp hq'
    cases h : findStmt c._statements q with
    | some st =>
        have hEq : getStatement wf c q =
            (Except.ok (resetStmt st),
             { c with
                _statements := storeStmt c._statements q (resetStmt st) }) := by
          unfold getStatement
          rw [h]
        rw [hEq]
        simp only [hasStatement]
        by_cases hqq : q' = q
        · subst hqq
          rw [findStmt_storeStmt_self, h]
          rfl
        · rw [findStmt_storeStmt_ne c._statements q q' (resetStmt st) hqq,
            hst]
          rfl
    | none =>
        by_cases hw : wf q = true
        · have hEq : getStatement wf c q =
              (Except.ok { id := c.nextStmtId, queryText := q,
                           bindings := [], cursor := 0 },
               { c with
                  _statements := c._statements ++
                    [(q, { id := c.nextStmtId, queryText := q,
                           bindings := [], cursor := 0 })],
                  nextStmtId := c.nextStmtId + 1,
                  compileLog := c.compileLog ++ [q] }) := by
            unfold getStatement
            rw [h]
            simp [hw]
          rw [hEq]
          simp only [hasStatement]
          rw [findStmt_append, hst]
          rfl
        · have hEq : getStatement wf c q =
              (Except.error SQLiteError.CompileError, c) := by
            unfold getStatement
            rw [h]
            simp [hw]
          rw [hEq]
          exact hq'

/-- C9 witness: on a connection holding one cached statement, the owned
resources coincide with the released ones, a `getStatement` on another
text destroys no cached statement, and the handle is released last. -/
theorem statement_lifetime_witness :
    (Resource.statement 0 ∈ ownedResources demoCached ↔
       Resource.statement 0 ∈ destroy demoCached) ∧
    (destroy demoCached).getLast? = some (Resource.handle "demo.db") ∧
    hasStatement demoCached "SELECT 1" = true ∧
    hasStatement ((getStatement demoCompiler demoCached "SELECT 2").2)
      "SELECT 1" = true :=
  ⟨statement_lifetime.1 demoCached (Resource.statement 0),
   statement_lifetime.2.1 demoCached,
   by decide,
   statement_lifetime.2.2.1 demoCompiler demoCached "SELECT 2" "SELECT 1"
     (by decide)⟩

end OfxSQLiteCpp
